import Mathlib

/-!
# Verification of the LangChainPlusClient evaluation dispatcher

Shallow embedding of `langchain/client/langchain.py` (class `LangChainPlusClient`):
the per-example runners (`run_llm_or_chain`, `_arun_llm_or_chain`), the predictor
adapters (`run_llm`, `_arun_llm`), the worker pool (`_worker`, `arun_on_dataset`),
the sequential runner (`run_on_dataset`) and the dataset resolver (`read_dataset`).

Modelling conventions:
- Python exceptions become `Except String` results; the broad `except Exception`
  boundary in the per-example runner makes the runner itself a total function.
- `example.id` is a UUID; we model a UUID by its canonical string rendering
  (`ExampleId.uuid`), so `str(example.id)` is `strOfId`, injective by construction.
- Python dict keys of the result maps are either a raw UUID object or a string;
  these are distinct dict keys in Python, modelled by the sum `PyKey`.
- A chain predictor may be stateful across calls, so its `run` and `arun` are
  modelled as functions of the invocation ordinal within the per-example runner.
- The tracer (`LangChainTracerV2`) is external; only its mutable `example_id`
  field is relevant here, so `Tracer` carries exactly that field, threaded
  through the runners by state passing. The runner additionally returns the
  ghost list of `example_id` values observed at each predictor invocation,
  which records what the tracer held during each call.
- Results of `llm.generate` / `parse_chat_messages ; chat.generate` are folded
  into the predictor fields `generate` / `agenerate` (external collaborators).
-/

namespace LangChainClient

/-- A UUID identifying an example, modelled by its canonical string rendering. -/
structure ExampleId where
  uuid : String
deriving DecidableEq, Repr

/-- Python str applied to a UUID: its canonical string. -/
def strOfId (i : ExampleId) : String := i.uuid

/-- Opaque JSON-like values flowing through inputs and outputs. -/
inductive Value where
  | str (s : String)
  | num (n : Nat)
deriving DecidableEq, Repr

/-- An inputs mapping (Python dict with string keys). -/
abbrev Inputs := List (String × Value)

/-- Python dict lookup inputs[key], returning none on a missing key (KeyError). -/
def findInput : Inputs → String → Option Value
  | [], _ => none
  | (k, v) :: rest, key => if k = key then some v else findInput rest key

/-- One example of a dataset: an opaque id and an inputs mapping. -/
structure Example where
  id : ExampleId
  inputs : Inputs
deriving DecidableEq, Repr

/-- The predictor under evaluation, mirroring the isinstance hierarchy the
source dispatches on: `BaseLLM` and `BaseChatModel` are `BaseLanguageModel`
subclasses; `otherLanguageModel` is a `BaseLanguageModel` that is neither
(the `else: raise ValueError(Unsupported LLM type ...)` branch); `chain` is a
`Chain`. Sync and async entry points (`generate`/`agenerate`, `run`/`arun`)
are separate fields; chain invocations take the invocation ordinal. -/
inductive Predictor where
  | baseLLM (generate agenerate : Value → Except String Value)
  | baseChatModel (generate agenerate : Value → Except String Value)
  | otherLanguageModel (typeName : String)
  | chain (run arun : Nat → Inputs → Except String Value)

/-- isinstance(p, BaseLanguageModel): everything except a Chain. -/
def Predictor.isBaseLanguageModel : Predictor → Bool
  | .chain _ _ => false
  | _ => true

/-- The trace correlator handle: only its mutable example_id field matters here. -/
structure Tracer where
  example_id : Option ExampleId
deriving DecidableEq, Repr

/-- One recorded outcome: the predictor output, or the error envelope
dict Error: message appended by the except branch. -/
inductive Outcome where
  | ok (v : Value)
  | error (msg : String)
deriving DecidableEq, Repr

/-- Wrapping of a predictor invocation by the try/except of the per-example
runner: a raised exception becomes the error envelope. -/
def outcomeOf : Except String Value → Outcome
  | Except.ok v => Outcome.ok v
  | Except.error m => Outcome.error m

/-- LangChainPlusClient.run_llm (lines 375-392): dispatch on BaseLLM /
BaseChatModel, reading inputs[prompts] (KeyError if absent); any other
type raises ValueError Unsupported LLM type. -/
def run_llm (llm : Predictor) (inputs : Inputs) : Except String Value :=
  match llm with
  | .baseLLM generate _ =>
      match findInput inputs "prompts" with
      | some prompts => generate prompts
      | none => Except.error "KeyError: prompts"
  | .baseChatModel generate _ =>
      match findInput inputs "prompts" with
      | some prompts => generate prompts
      | none => Except.error "KeyError: prompts"
  | .otherLanguageModel typeName => Except.error ("Unsupported LLM type " ++ typeName)
  | .chain _ _ => Except.error "Unsupported LLM type chain"

/-- LangChainPlusClient._arun_llm (lines 232-249): the async twin of run_llm,
using the async generate entry point. -/
def _arun_llm (llm : Predictor) (inputs : Inputs) : Except String Value :=
  match llm with
  | .baseLLM _ agenerate =>
      match findInput inputs "prompts" with
      | some prompts => agenerate prompts
      | none => Except.error "KeyError: prompts"
  | .baseChatModel _ agenerate =>
      match findInput inputs "prompts" with
      | some prompts => agenerate prompts
      | none => Except.error "KeyError: prompts"
  | .otherLanguageModel typeName => Except.error ("Unsupported LLM type " ++ typeName)
  | .chain _ _ => Except.error "Unsupported LLM type chain"

/-- The if isinstance(llm_or_chain, BaseLanguageModel) dispatch in the body of
run_llm_or_chain (lines 407-414): language models go through run_llm, chains
call chain.run with the invocation ordinal. -/
def invokeSync (p : Predictor) (i : Nat) (inputs : Inputs) : Except String Value :=
  match p with
  | .chain run _ => run i inputs
  | _ => run_llm p inputs

/-- The corresponding dispatch in _arun_llm_or_chain (lines 264-271). -/
def invokeAsync (p : Predictor) (i : Nat) (inputs : Inputs) : Except String Value :=
  match p with
  | .chain _ arun => arun i inputs
  | _ => _arun_llm p inputs

/-- The repetition loop of run_llm_or_chain (lines 405-420): for each
repetition, try invoke / except append the error envelope / finally restore
example_id to the saved previous value. The finally clause is INSIDE the
loop, exactly as in the source: it runs after every repetition. Returns
(outputs, ghost list of example_id observed at each invocation, final tracer).
`i` is the ordinal of the next invocation. -/
def runRepsSync (p : Predictor) (e : Example) (previous : Option ExampleId) :
    Nat → Nat → Tracer → List Outcome × List (Option ExampleId) × Tracer
  | _, 0, tr => ([], [], tr)
  | i, k + 1, tr =>
      let observed := tr.example_id
      let out := outcomeOf (invokeSync p i e.inputs)
      let tr2 : Tracer := { tr with example_id := previous }
      let rest := runRepsSync p e previous (i + 1) k tr2
      (out :: rest.1, observed :: rest.2.1, rest.2.2)

/-- The repetition loop of _arun_llm_or_chain (lines 262-277), identical in
shape to the sync loop but through the async invocation path. -/
def runRepsAsync (p : Predictor) (e : Example) (previous : Option ExampleId) :
    Nat → Nat → Tracer → List Outcome × List (Option ExampleId) × Tracer
  | _, 0, tr => ([], [], tr)
  | i, k + 1, tr =>
      let observed := tr.example_id
      let out := outcomeOf (invokeAsync p i e.inputs)
      let tr2 : Tracer := { tr with example_id := previous }
      let rest := runRepsAsync p e previous (i + 1) k tr2
      (out :: rest.1, observed :: rest.2.1, rest.2.2)

/-- LangChainPlusClient.run_llm_or_chain (lines 394-421): save
previous_example_id, set example_id to the example id, run the repetition
loop. Total: the except branch converts every raised failure to an outcome. -/
def run_llm_or_chain (p : Predictor) (e : Example) (n_repetitions : Nat)
    (tracer : Tracer) : List Outcome × List (Option ExampleId) × Tracer :=
  let previous_example_id := tracer.example_id
  let tracer1 : Tracer := { tracer with example_id := some e.id }
  runRepsSync p e previous_example_id 0 n_repetitions tracer1

/-- LangChainPlusClient._arun_llm_or_chain (lines 251-278): the async twin. -/
def _arun_llm_or_chain (p : Predictor) (e : Example) (n_repetitions : Nat)
    (tracer : Tracer) : List Outcome × List (Option ExampleId) × Tracer :=
  let previous_example_id := tracer.example_id
  let tracer1 : Tracer := { tracer with example_id := some e.id }
  runRepsAsync p e previous_example_id 0 n_repetitions tracer1

/-- A key of the results dict: arun stores under str(example.id) (a string),
run_on_dataset stores under the raw example.id (a UUID object); in Python
these are distinct keys of distinct types. -/
inductive PyKey where
  | uuid (i : ExampleId)
  | str (s : String)
deriving DecidableEq, Repr

/-- The results dict, as an insertion-ordered association list (Python dict). -/
abbrev ResultsMap := List (PyKey × List Outcome)

/-- Python dict assignment m[k] = v: update in place, else append. -/
def dictInsert : ResultsMap → PyKey → List Outcome → ResultsMap
  | [], k, v => [(k, v)]
  | (k0, v0) :: rest, k, v =>
      if k0 = k then (k0, v) :: rest else (k0, v0) :: dictInsert rest k v

/-- The keys of a results dict, in insertion order. -/
def dictKeys (m : ResultsMap) : List PyKey := m.map Prod.fst

/-- Python dict read m[k], as an Option. -/
def dictGet : ResultsMap → PyKey → Option (List Outcome)
  | [], _ => none
  | (k0, v0) :: rest, k => if k0 = k then some v0 else dictGet rest k

/-- LangChainPlusClient._worker (lines 280-310): drain the assigned examples
in order; for each, run _arun_llm_or_chain, write the outcome list into the
shared results dict under str(example.id), and increment
job_state num_processed once per example. The worker tracer is threaded
through the runner calls; the queue and termination marker are modelled by
the end of the assigned list. Returns the final (results, num_processed). -/
def _worker (chainP : Predictor) (n_repetitions : Nat) :
    List Example → Tracer → ResultsMap → Nat → ResultsMap × Nat
  | [], _, results, num_processed => (results, num_processed)
  | e :: rest, tracer, results, num_processed =>
      let r := _arun_llm_or_chain chainP e n_repetitions tracer
      _worker chainP n_repetitions rest r.2.2
        (dictInsert results (PyKey.str (strOfId e.id)) r.1) (num_processed + 1)

/-- Fatal pre-flight failures of the dataset runners. -/
inductive RunError where
  | notImplemented
  | nameError
deriving DecidableEq, Repr

/-- LangChainPlusClient.arun_on_dataset (lines 312-373). Pre-flight: any
BaseLanguageModel predictor raises NotImplementedError (lines 334-335) before
the dataset is read or the session opened. Dataset resolution and example
listing are external HTTP collaborators, so the model takes the listed
`examples` directly. The worker pool dequeues each enqueued example exactly
once and each write targets the key str(example.id); the only scheduling
nondeterminism visible in the returned dict and counter is the global
completion order, a permutation (interleaving of the per-worker subsequences)
of the feed order, taken here as the parameter `completionOrder`; the pool
then behaves as one worker processing that order. Returns the results dict
and the final job_state num_processed. -/
def arun_on_dataset (llm_or_chain : Predictor) (examples : List Example)
    (num_workers num_repetitions : Nat) (completionOrder : List Example) :
    Except RunError (ResultsMap × Nat) :=
  if llm_or_chain.isBaseLanguageModel then Except.error RunError.notImplemented
  else
    let freshTracer : Tracer := { example_id := none }
    let _ := num_workers
    let _ := examples
    Except.ok (_worker llm_or_chain num_repetitions completionOrder freshTracer [] 0)

/-- The for-loop of run_on_dataset (lines 456-464): run each example through
run_llm_or_chain, threading the single tracer; the loop variables example and
result survive the loop, so the loop leaves behind the LAST (example, result)
pair, or nothing when the listing is empty. -/
def seqLoop (llm_or_chain : Predictor) (n_repetitions : Nat) :
    List Example → Tracer → Option (Example × List Outcome) →
      Option (Example × List Outcome)
  | [], _, last => last
  | e :: rest, tracer, _ =>
      let r := run_llm_or_chain llm_or_chain e n_repetitions tracer
      seqLoop llm_or_chain n_repetitions rest r.2.2 (some (e, r.1))

/-- LangChainPlusClient.run_on_dataset (lines 423-466). Pre-flight: any
BaseLanguageModel predictor raises NotImplementedError (lines 443-444). The
final write results[example.id] = result (line 465) sits OUTSIDE the for
loop, at the loop-header indentation: it runs once after the loop, storing
only the last example and its result, under the RAW example.id key; when the
example listing is empty it raises NameError (the loop variable example was
never bound). -/
def run_on_dataset (llm_or_chain : Predictor) (examples : List Example)
    (num_repetitions : Nat) : Except RunError ResultsMap :=
  if llm_or_chain.isBaseLanguageModel then Except.error RunError.notImplemented
  else
    let tracer : Tracer := { example_id := none }
    match seqLoop llm_or_chain num_repetitions examples tracer none with
    | none => Except.error RunError.nameError
    | some (e, result) => Except.ok (dictInsert [] (PyKey.uuid e.id) result)

/-- A stored dataset record (only the fields the resolver returns matter). -/
structure Dataset where
  id : String
  name : String
deriving DecidableEq, Repr

/-- The external dataset store behind GET /datasets: lookup by id
(GET /datasets/id, 404 when absent) and by name
(GET /datasets?name=...&limit=1, returning a list). -/
structure DatasetStore where
  byId : String → Option Dataset
  byName : String → List Dataset

/-- Failures of read_dataset. -/
inductive ReadError where
  | xorArgs
  | httpNotFound
  | notFound (name : String)
deriving DecidableEq, Repr

/-- LangChainPlusClient.read_dataset (lines 173-195). Modelled from the spec:
the xor_args decorator lives in langchain.utils, outside this file, and the
HTTP store is an external collaborator; per the spec, resolution fails when
an ambiguous pair of identifiers is supplied (both or neither given) and
with a not-found failure when the identifier does not resolve. The body
itself follows the source: by id, fetch /datasets/id (raise_for_status on
404); by name, query with limit 1 and raise ValueError Dataset not found on
an empty listing, else return the first match. -/
def read_dataset (store : DatasetStore)
    (dataset_name dataset_id : Option String) : Except ReadError Dataset :=
  match dataset_name, dataset_id with
  | some _, some _ => Except.error ReadError.xorArgs
  | none, none => Except.error ReadError.xorArgs
  | _, some i =>
      match store.byId i with
      | some d => Except.ok d
      | none => Except.error ReadError.httpNotFound
  | some n, none =>
      match store.byName n with
      | [] => Except.error (ReadError.notFound n)
      | d :: _ => Except.ok d

/-- The outcome sequence that the sync per-example runner records for one
example: one wrapped invocation result per repetition, in repetition order. -/
def syncOutputs (p : Predictor) (n : Nat) (e : Example) : List Outcome :=
  (List.range n).map fun j => outcomeOf (invokeSync p j e.inputs)

/-- The outcome sequence that the async per-example runner records. -/
def asyncOutputs (p : Predictor) (n : Nat) (e : Example) : List Outcome :=
  (List.range n).map fun j => outcomeOf (invokeAsync p j e.inputs)

lemma runRepsSync_outputs (p : Predictor) (e : Example) (previous : Option ExampleId) :
    ∀ (n i : Nat) (tr : Tracer),
      (runRepsSync p e previous i n tr).1 =
        (List.range' i n).map fun j => outcomeOf (invokeSync p j e.inputs) := by
  intro n
  induction n with
  | zero => intro i tr; rfl
  | succ k ih =>
      intro i tr
      show outcomeOf (invokeSync p i e.inputs) ::
          (runRepsSync p e previous (i + 1) k { example_id := previous }).1 = _
      rw [List.range'_succ, List.map_cons, ih (i + 1)]

lemma runRepsAsync_outputs (p : Predictor) (e : Example) (previous : Option ExampleId) :
    ∀ (n i : Nat) (tr : Tracer),
      (runRepsAsync p e previous i n tr).1 =
        (List.range' i n).map fun j => outcomeOf (invokeAsync p j e.inputs) := by
  intro n
  induction n with
  | zero => intro i tr; rfl
  | succ k ih =>
      intro i tr
      show outcomeOf (invokeAsync p i e.inputs) ::
          (runRepsAsync p e previous (i + 1) k { example_id := previous }).1 = _
      rw [List.range'_succ, List.map_cons, ih (i + 1)]

lemma runRepsSync_ids (p : Predictor) (e : Example) (previous : Option ExampleId) :
    ∀ (k i : Nat) (tr : Tracer),
      (runRepsSync p e previous i (k + 1) tr).2.1 =
        tr.example_id :: List.replicate k previous := by
  intro k
  induction k with
  | zero => intro i tr; rfl
  | succ k ih =>
      intro i tr
      show tr.example_id ::
          (runRepsSync p e previous (i + 1) (k + 1) { example_id := previous }).2.1 = _
      rw [ih (i + 1), List.replicate_succ]

lemma runRepsAsync_ids (p : Predictor) (e : Example) (previous : Option ExampleId) :
    ∀ (k i : Nat) (tr : Tracer),
      (runRepsAsync p e previous i (k + 1) tr).2.1 =
        tr.example_id :: List.replicate k previous := by
  intro k
  induction k with
  | zero => intro i tr; rfl
  | succ k ih =>
      intro i tr
      show tr.example_id ::
          (runRepsAsync p e previous (i + 1) (k + 1) { example_id := previous }).2.1 = _
      rw [ih (i + 1), List.replicate_succ]

lemma runRepsSync_tracer (p : Predictor) (e : Example) (previous : Option ExampleId) :
    ∀ (k i : Nat) (tr : Tracer),
      (runRepsSync p e previous i (k + 1) tr).2.2 = { example_id := previous } := by
  intro k
  induction k with
  | zero => intro i tr; rfl
  | succ k ih => intro i tr; exact ih (i + 1) { example_id := previous }

lemma runRepsAsync_tracer (p : Predictor) (e : Example) (previous : Option ExampleId) :
    ∀ (k i : Nat) (tr : Tracer),
      (runRepsAsync p e previous i (k + 1) tr).2.2 = { example_id := previous } := by
  intro k
  induction k with
  | zero => intro i tr; rfl
  | succ k ih => intro i tr; exact ih (i + 1) { example_id := previous }

lemma run_llm_or_chain_outputs (p : Predictor) (e : Example) (n : Nat) (tr : Tracer) :
    (run_llm_or_chain p e n tr).1 = syncOutputs p n e := by
  show (runRepsSync p e tr.example_id 0 n { example_id := some e.id }).1 = _
  rw [runRepsSync_outputs, syncOutputs, List.range_eq_range']

lemma arun_llm_or_chain_outputs (p : Predictor) (e : Example) (n : Nat) (tr : Tracer) :
    (_arun_llm_or_chain p e n tr).1 = asyncOutputs p n e := by
  show (runRepsAsync p e tr.example_id 0 n { example_id := some e.id }).1 = _
  rw [runRepsAsync_outputs, asyncOutputs, List.range_eq_range']

lemma run_llm_or_chain_ids (p : Predictor) (e : Example) (k : Nat) (tr : Tracer) :
    (run_llm_or_chain p e (k + 1) tr).2.1 = some e.id :: List.replicate k tr.example_id := by
  show (runRepsSync p e tr.example_id 0 (k + 1) { example_id := some e.id }).2.1 = _
  rw [runRepsSync_ids]

lemma arun_llm_or_chain_ids (p : Predictor) (e : Example) (k : Nat) (tr : Tracer) :
    (_arun_llm_or_chain p e (k + 1) tr).2.1 = some e.id :: List.replicate k tr.example_id := by
  show (runRepsAsync p e tr.example_id 0 (k + 1) { example_id := some e.id }).2.1 = _
  rw [runRepsAsync_ids]

lemma run_llm_or_chain_tracer (p : Predictor) (e : Example) (k : Nat) (tr : Tracer) :
    (run_llm_or_chain p e (k + 1) tr).2.2 = { example_id := tr.example_id } := by
  show (runRepsSync p e tr.example_id 0 (k + 1) { example_id := some e.id }).2.2 = _
  rw [runRepsSync_tracer]

lemma arun_llm_or_chain_tracer (p : Predictor) (e : Example) (k : Nat) (tr : Tracer) :
    (_arun_llm_or_chain p e (k + 1) tr).2.2 = { example_id := tr.example_id } := by
  show (runRepsAsync p e tr.example_id 0 (k + 1) { example_id := some e.id }).2.2 = _
  rw [runRepsAsync_tracer]

lemma syncOutputs_length (p : Predictor) (n : Nat) (e : Example) :
    (syncOutputs p n e).length = n := by
  simp [syncOutputs]

lemma asyncOutputs_length (p : Predictor) (n : Nat) (e : Example) :
    (asyncOutputs p n e).length = n := by
  simp [asyncOutputs]

lemma dictInsert_fresh : ∀ (m : ResultsMap) (k : PyKey) (v : List Outcome),
    k ∉ dictKeys m → dictInsert m k v = m ++ [(k, v)] := by
  intro m
  induction m with
  | nil => intro k v _; rfl
  | cons kv rest ih =>
      intro k v hk
      obtain ⟨k0, v0⟩ := kv
      have hne : ¬k0 = k := by
        intro h
        exact hk (by simp [dictKeys, h])
      simp only [dictInsert, if_neg hne, List.cons_append, List.cons.injEq, true_and]
      exact ih k v fun h => hk (by simp [dictKeys] at h ⊢; exact Or.inr h)

lemma dictGet_mem : ∀ (m : ResultsMap) (k : PyKey) (v : List Outcome),
    dictGet m k = some v → (k, v) ∈ m := by
  intro m
  induction m with
  | nil => intro k v h; simp [dictGet] at h
  | cons kv rest ih =>
      intro k v h
      obtain ⟨k0, v0⟩ := kv
      by_cases hk : k0 = k
      · subst hk
        have hv : v0 = v := by simpa [dictGet] using h
        subst hv
        exact List.mem_cons_self _ _
      · have hrest : dictGet rest k = some v := by simpa [dictGet, hk] using h
        exact List.mem_cons_of_mem _ (ih k v hrest)

lemma dictKeys_append (m m' : ResultsMap) :
    dictKeys (m ++ m') = dictKeys m ++ dictKeys m' := by
  simp [dictKeys]

lemma dictGet_map_of_mem (κ : Example → PyKey) (f : Example → List Outcome) :
    ∀ (l : List Example), (l.map κ).Nodup →
      ∀ e ∈ l, dictGet (l.map fun x => (κ x, f x)) (κ e) = some (f e) := by
  intro l
  induction l with
  | nil => intro _ e he; simp at he
  | cons x rest ih =>
      intro hnd e he
      rw [List.map_cons] at hnd
      have hx : κ x ∉ rest.map κ := (List.nodup_cons.1 hnd).1
      rcases List.mem_cons.1 he with he | he
      · subst he
        simp [dictGet]
      · have hne : ¬κ x = κ e := by
          intro h
          exact hx (h ▸ List.mem_map_of_mem κ he)
        simp only [List.map_cons, dictGet, if_neg hne]
        exact ih (List.nodup_cons.1 hnd).2 e he

lemma worker_count (p : Predictor) (n : Nat) :
    ∀ (l : List Example) (tr : Tracer) (res : ResultsMap) (cnt : Nat),
      (_worker p n l tr res cnt).2 = cnt + l.length := by
  intro l
  induction l with
  | nil => intro tr res cnt; simp [_worker]
  | cons e rest ih =>
      intro tr res cnt
      show (_worker p n rest _ _ (cnt + 1)).2 = _
      rw [ih]
      simp [Nat.add_comm, Nat.add_assoc, Nat.add_left_comm]

lemma worker_results (p : Predictor) (n : Nat) :
    ∀ (l : List Example) (tr : Tracer) (res : ResultsMap) (cnt : Nat),
      ((l.map fun e => PyKey.str (strOfId e.id)).Nodup) →
      (∀ e ∈ l, PyKey.str (strOfId e.id) ∉ dictKeys res) →
      (_worker p n l tr res cnt).1 =
        res ++ l.map fun e => (PyKey.str (strOfId e.id), asyncOutputs p n e) := by
  intro l
  induction l with
  | nil => intro tr res cnt _ _; simp [_worker]
  | cons e rest ih =>
      intro tr res cnt hnd hfresh
      rw [List.map_cons] at hnd
      have hkey : PyKey.str (strOfId e.id) ∉ dictKeys res :=
        hfresh e (List.mem_cons_self _ _)
      show (_worker p n rest _
          (dictInsert res (PyKey.str (strOfId e.id)) (_arun_llm_or_chain p e n tr).1)
          (cnt + 1)).1 = _
      rw [arun_llm_or_chain_outputs, dictInsert_fresh res _ _ hkey,
        ih _ _ (cnt + 1) (List.nodup_cons.1 hnd).2 ?_]
      · simp
      · intro x hx
        rw [dictKeys_append]
        simp only [List.mem_append, not_or]
        refine ⟨hfresh x (List.mem_cons_of_mem _ hx), ?_⟩
        simp only [dictKeys, List.map_cons, List.map_nil, List.mem_singleton]
        intro h
        exact (List.nodup_cons.1 hnd).1 (h ▸ List.mem_map_of_mem _ hx)

/-- A concrete example with id aaa and empty inputs, used in concrete runs. -/
def exA : Example := { id := { uuid := "aaa" }, inputs := [] }

/-- A concrete example with id bbb and empty inputs. -/
def exB : Example := { id := { uuid := "bbb" }, inputs := [] }

/-- A chain predictor whose every invocation returns the value 7. -/
def constChain : Predictor :=
  .chain (fun _ _ => Except.ok (Value.num 7)) (fun _ _ => Except.ok (Value.num 7))

/-- A chain predictor that fails on its second invocation (ordinal 1) with
message boom and succeeds otherwise. -/
def mixedChain : Predictor :=
  .chain (fun i _ => if i = 1 then Except.error "boom" else Except.ok (Value.num 7))
    (fun i _ => if i = 1 then Except.error "boom" else Except.ok (Value.num 7))

/-- A bare language model predictor (a BaseLLM) returning 7 on any prompts. -/
def llmP : Predictor :=
  .baseLLM (fun _ => Except.ok (Value.num 7)) (fun _ => Except.ok (Value.num 7))

/-- A concrete stored dataset named b. -/
def d0 : Dataset := { id := "id0", name := "b" }

/-- A concrete dataset store: id x and name b resolve to d0, all else misses. -/
def store0 : DatasetStore :=
  { byId := fun i => if i = "x" then some d0 else none,
    byName := fun n => if n = "b" then [d0] else [] }

/-- C3: the claim says the tracer's example_id equals the example's id
throughout all R invocations and is restored to the prior value only after
the runner returns. The code is wrong: the finally clause restoring
example_id sits inside the repetition loop (lines 276-277 and 419-420), so
it fires after every repetition and invocations 2..R observe the saved
previous value instead of the example's id. Evaluated here at R = 2 with a
prior value of none: the observed ids are [some aaa, none], the second
differing from some aaa; the after-return value does equal the prior value. -/
theorem claimC3_bug_eval :
    (run_llm_or_chain constChain exA 2 { example_id := none }).2.1 =
        [some exA.id, none] ∧
    ((run_llm_or_chain constChain exA 2 { example_id := none }).2.1)[1]? ≠
        some (some exA.id) ∧
    (_arun_llm_or_chain constChain exA 2 { example_id := none }).2.1 =
        [some exA.id, none] ∧
    (run_llm_or_chain constChain exA 2 { example_id := none }).2.2 =
        { example_id := none } := by
  exact ⟨by decide, by decide, by decide, by decide⟩

/-- C2: the claim says run_on_dataset returns a map of the same shape as
arun_on_dataset: one entry per example id. The code is wrong: the final
write results[example.id] = result (line 465) is indented outside the for
loop, so the sequential runner records only the last example. Evaluated on
two examples with R = 1 and a constant chain: the sequential map has the one
key bbb while the pooled map has both keys. -/
theorem claimC2_bug_eval :
    run_on_dataset constChain [exA, exB] 1 =
        Except.ok [(PyKey.uuid exB.id, [Outcome.ok (Value.num 7)])] ∧
    arun_on_dataset constChain [exA, exB] 2 1 [exA, exB] =
        Except.ok ([(PyKey.str (strOfId exA.id), [Outcome.ok (Value.num 7)]),
          (PyKey.str (strOfId exB.id), [Outcome.ok (Value.num 7)])], 2) ∧
    (dictKeys [(PyKey.uuid exB.id, [Outcome.ok (Value.num 7)])]).length = 1 ∧
    (dictKeys [(PyKey.str (strOfId exA.id), [Outcome.ok (Value.num 7)]),
      (PyKey.str (strOfId exB.id), [Outcome.ok (Value.num 7)])]).length = 2 := by
  exact ⟨rfl, rfl, rfl, rfl⟩

/-- C9: on an empty example listing the sequential runner does not return an
empty map: the write results[example.id] = result after the loop references
the loop variable example, never bound, raising NameError. -/
theorem claimC9 (p : Predictor) (R : Nat) (hp : p.isBaseLanguageModel = false) :
    run_on_dataset p [] R = Except.error RunError.nameError := by
  simp [run_on_dataset, hp, seqLoop]

/-- Witness for C9 at the constant chain with R = 1. -/
theorem claimC9_witness :
    constChain.isBaseLanguageModel = false ∧
      run_on_dataset constChain [] 1 = Except.error RunError.nameError :=
  ⟨rfl, claimC9 constChain 1 rfl⟩

/-- C6, counterexample: the claim says an unsupported predictor kind always
fails pre-flight and is never converted into a per-example error-outcome.
Running the per-example runner with a BaseLanguageModel that is neither a
BaseLLM nor a BaseChatModel, the ValueError raised by run_llm is caught by
the per-repetition except branch and recorded as that repetition's outcome. -/
theorem claimC6_counterexample :
    (run_llm_or_chain (Predictor.otherLanguageModel "FakeLM") exA 1
        { example_id := none }).1 =
      [Outcome.error "Unsupported LLM type FakeLM"] ∧
    (_arun_llm_or_chain (Predictor.otherLanguageModel "FakeLM") exA 1
        { example_id := none }).1 =
      [Outcome.error "Unsupported LLM type FakeLM"] := by
  exact ⟨by decide, by decide⟩

/-- C6, amended: the unsupported-kind ValueError is raised inside the
adapters run_llm and _arun_llm at invocation time; when such a predictor
reaches the per-example runner the error is caught and fills every
repetition slot as an error-outcome. The public entry points reject every
bare language model, unsupported kinds included, pre-flight with
NotImplementedError before the dataset is read or a session opened. -/
theorem claimC6_amended (t : String) (inputs : Inputs) (e : Example) (n : Nat)
    (tr : Tracer) (examples completionOrder : List Example) (W R : Nat) :
    run_llm (Predictor.otherLanguageModel t) inputs =
        Except.error ("Unsupported LLM type " ++ t) ∧
    _arun_llm (Predictor.otherLanguageModel t) inputs =
        Except.error ("Unsupported LLM type " ++ t) ∧
    (run_llm_or_chain (Predictor.otherLanguageModel t) e n tr).1 =
        List.replicate n (Outcome.error ("Unsupported LLM type " ++ t)) ∧
    (_arun_llm_or_chain (Predictor.otherLanguageModel t) e n tr).1 =
        List.replicate n (Outcome.error ("Unsupported LLM type " ++ t)) ∧
    arun_on_dataset (Predictor.otherLanguageModel t) examples W R completionOrder =
        Except.error RunError.notImplemented ∧
    run_on_dataset (Predictor.otherLanguageModel t) examples R =
        Except.error RunError.notImplemented := by
  refine ⟨rfl, rfl, ?_, ?_, ?_, ?_⟩
  · rw [run_llm_or_chain_outputs]
    simp [syncOutputs, invokeSync, run_llm, outcomeOf, List.map_const']
  · rw [arun_llm_or_chain_outputs]
    simp [asyncOutputs, invokeAsync, _arun_llm, outcomeOf, List.map_const']
  · simp [arun_on_dataset, Predictor.isBaseLanguageModel]
  · simp [run_on_dataset, Predictor.isBaseLanguageModel]

/-- C5, counterexample: the claim says both public entry points accept a bare
language model as predictor. They do not: lines 334-335 and 443-444 raise
NotImplementedError for every BaseLanguageModel, here a plain BaseLLM. -/
theorem claimC5_counterexample :
    arun_on_dataset llmP [exA] 1 1 [exA] = Except.error RunError.notImplemented ∧
    run_on_dataset llmP [exA] 1 = Except.error RunError.notImplemented :=
  ⟨rfl, rfl⟩

/-- C5, amended: the per-example runners and adapters handle both predictor
kinds, but the public entry points arun_on_dataset and run_on_dataset reject
every bare language model with NotImplementedError before dispatching any
example; only a composed chain is evaluated, and for a chain arun_on_dataset
returns a result map. -/
theorem claimC5_amended (p : Predictor) (examples completionOrder : List Example)
    (W R : Nat) :
    (p.isBaseLanguageModel = true →
      arun_on_dataset p examples W R completionOrder =
          Except.error RunError.notImplemented ∧
      run_on_dataset p examples R = Except.error RunError.notImplemented) ∧
    (p.isBaseLanguageModel = false →
      ∃ mc, arun_on_dataset p examples W R completionOrder = Except.ok mc) := by
  constructor
  · intro hb
    exact ⟨by simp [arun_on_dataset, hb], by simp [run_on_dataset, hb]⟩
  · intro hb
    exact ⟨_worker p R completionOrder { example_id := none } [] 0,
      by simp [arun_on_dataset, hb]⟩

/-- Witness for C5 amended: a bare BaseLLM is rejected, a chain is run. -/
theorem claimC5_amended_witness :
    arun_on_dataset llmP [exA] 1 1 [exA] = Except.error RunError.notImplemented ∧
    (∃ mc, arun_on_dataset constChain [exA] 1 1 [exA] = Except.ok mc) :=
  ⟨((claimC5_amended llmP [exA] [exA] 1 1).1 rfl).1,
    (claimC5_amended constChain [exA] [exA] 1 1).2 rfl⟩

/-- The concrete pooled result map for the listing [exA, exB] run with the
constant chain, one repetition, completion order [exB, exA]. -/
def m1 : ResultsMap :=
  [(PyKey.str "bbb", [Outcome.ok (Value.num 7)]),
    (PyKey.str "aaa", [Outcome.ok (Value.num 7)])]

/-- C4: for every repetition, the per-example runner (sync and async) records
exactly the wrapped result of that invocation in that repetition's slot: a
raised failure becomes the error envelope there and the remaining repetitions
still run; the runner is a total function, so no failure propagates out of it. -/
theorem claimC4 (p : Predictor) (e : Example) (n : Nat) (tr : Tracer) (j : Nat)
    (hj : j < n) :
    (run_llm_or_chain p e n tr).1.length = n ∧
    ((run_llm_or_chain p e n tr).1)[j]? =
      some (outcomeOf (invokeSync p j e.inputs)) ∧
    (_arun_llm_or_chain p e n tr).1.length = n ∧
    ((_arun_llm_or_chain p e n tr).1)[j]? =
      some (outcomeOf (invokeAsync p j e.inputs)) := by
  rw [run_llm_or_chain_outputs, arun_llm_or_chain_outputs]
  refine ⟨syncOutputs_length p n e, ?_, asyncOutputs_length p n e, ?_⟩
  · rw [syncOutputs, List.getElem?_map, List.getElem?_range hj]
    rfl
  · rw [asyncOutputs, List.getElem?_map, List.getElem?_range hj]
    rfl

/-- Witness for C4 at a chain failing on its second invocation, R = 3, j = 1. -/
theorem claimC4_witness :
    1 < 3 ∧
    ((run_llm_or_chain mixedChain exA 3 { example_id := none }).1.length = 3 ∧
      ((run_llm_or_chain mixedChain exA 3 { example_id := none }).1)[1]? =
        some (outcomeOf (invokeSync mixedChain 1 exA.inputs)) ∧
      (_arun_llm_or_chain mixedChain exA 3 { example_id := none }).1.length = 3 ∧
      ((_arun_llm_or_chain mixedChain exA 3 { example_id := none }).1)[1]? =
        some (outcomeOf (invokeAsync mixedChain 1 exA.inputs))) :=
  ⟨by decide, claimC4 mixedChain exA 3 { example_id := none } 1 (by decide)⟩

/-- C1: whenever arun_on_dataset returns a result map over a listing of K
examples with pairwise distinct ids, with 1 ≤ W ≤ K workers and R ≥ 1
repetitions, and any completion order of the pool, the map has exactly K
keys, one per example id, and the value at each key is the outcome sequence
of length exactly R, one outcome per repetition in repetition order. -/
theorem claimC1 (p : Predictor) (examples completionOrder : List Example)
    (W R : Nat) (m : ResultsMap) (c : Nat)
    (hids : (examples.map fun e => e.id).Nodup)
    (hW1 : 1 ≤ W) (hWK : W ≤ examples.length) (hR : 1 ≤ R)
    (hperm : completionOrder.Perm examples)
    (hrun : arun_on_dataset p examples W R completionOrder = Except.ok (m, c)) :
    (dictKeys m).length = examples.length ∧
    (dictKeys m).Nodup ∧
    (∀ e ∈ examples, dictGet m (PyKey.str (strOfId e.id)) =
      some (asyncOutputs p R e)) ∧
    (∀ k v, dictGet m k = some v → v.length = R) := by
  have hb : p.isBaseLanguageModel = false := by
    cases hbv : p.isBaseLanguageModel with
    | false => rfl
    | true => simp [arun_on_dataset, hbv] at hrun
  simp only [arun_on_dataset, hb, Bool.false_eq_true, if_false, Except.ok.injEq] at hrun
  have hids2 : (completionOrder.map fun e => e.id).Nodup :=
    ((hperm.map fun e => e.id).nodup_iff).2 hids
  have hinj : Function.Injective fun i : ExampleId => PyKey.str (strOfId i) := by
    intro a b hab
    cases a
    cases b
    simpa [strOfId] using hab
  have hkeys : (completionOrder.map fun e => PyKey.str (strOfId e.id)).Nodup := by
    have hcomp : (completionOrder.map fun e => PyKey.str (strOfId e.id)) =
        (completionOrder.map fun e => e.id).map fun i => PyKey.str (strOfId i) := by
      rw [List.map_map]
      rfl
    rw [hcomp]
    exact hids2.map hinj
  have hw := worker_results p R completionOrder { example_id := none } [] 0 hkeys
    (by intro e _; simp [dictKeys])
  rw [hrun] at hw
  simp only [List.nil_append] at hw
  have hkm : dictKeys m = completionOrder.map fun e => PyKey.str (strOfId e.id) := by
    rw [hw, dictKeys, List.map_map]
    rfl
  refine ⟨?_, ?_, ?_, ?_⟩
  · rw [hkm, List.length_map, hperm.length_eq]
  · rw [hkm]
    exact hkeys
  · intro e he
    rw [hw]
    exact dictGet_map_of_mem _ _ completionOrder hkeys e (hperm.mem_iff.2 he)
  · intro k v hget
    have hmem := dictGet_mem m k v hget
    rw [hw] at hmem
    obtain ⟨e', _, heq⟩ := List.mem_map.1 hmem
    have heq2 : (PyKey.str (strOfId e'.id), asyncOutputs p R e') = (k, v) := heq
    injection heq2 with h1 h2
    rw [← h2]
    exact asyncOutputs_length p R e'

/-- Witness for C1: two examples, two workers, one repetition, completion
order the reverse of feed order. -/
theorem claimC1_witness :
    (([exA, exB].map fun e => e.id).Nodup ∧ 1 ≤ 2 ∧ 2 ≤ [exA, exB].length ∧
      (1 : Nat) ≤ 1) ∧
    ((dictKeys m1).length = [exA, exB].length ∧
      (dictKeys m1).Nodup ∧
      (∀ e ∈ [exA, exB], dictGet m1 (PyKey.str (strOfId e.id)) =
        some (asyncOutputs constChain 1 e)) ∧
      (∀ k v, dictGet m1 k = some v → v.length = 1)) :=
  ⟨⟨by decide, by decide, by decide, by decide⟩,
    claimC1 constChain [exA, exB] [exB, exA] 2 1 m1 2 (by decide) (by decide)
      (by decide) (by decide) (List.Perm.swap exA exB []) rfl⟩

/-- C7: whenever arun_on_dataset completes, the final processed-count equals
the number K of listed examples, for every worker count W ≥ 1 and repetition
count R ≥ 1 and every completion order: it was incremented once per example
and never per repetition (the count is independent of R). -/
theorem claimC7 (p : Predictor) (examples completionOrder : List Example)
    (W R : Nat) (m : ResultsMap) (c : Nat)
    (hW1 : 1 ≤ W) (hR : 1 ≤ R)
    (hperm : completionOrder.Perm examples)
    (hrun : arun_on_dataset p examples W R completionOrder = Except.ok (m, c)) :
    c = examples.length := by
  have hb : p.isBaseLanguageModel = false := by
    cases hbv : p.isBaseLanguageModel with
    | false => rfl
    | true => simp [arun_on_dataset, hbv] at hrun
  simp only [arun_on_dataset, hb, Bool.false_eq_true, if_false, Except.ok.injEq] at hrun
  have hcount := worker_count p R completionOrder { example_id := none } [] 0
  rw [hrun] at hcount
  simpa [hperm.length_eq] using hcount

/-- Witness for C7: two examples, two workers, one repetition. -/
theorem claimC7_witness :
    ((1 : Nat) ≤ 2 ∧ (1 : Nat) ≤ 1) ∧ (2 : Nat) = [exA, exB].length :=
  ⟨⟨by decide, by decide⟩,
    claimC7 constChain [exA, exB] [exB, exA] 2 1 m1 2 (by decide) (by decide)
      (List.Perm.swap exA exB []) rfl⟩

/-- C8: read_dataset fails on an ambiguous pair of identifiers (both or
neither of dataset_name, dataset_id supplied), fails with a not-found
failure when the supplied identifier does not resolve (HTTP 404 by id, the
ValueError Dataset not found by name), and on success returns the resolved
Dataset (by id the fetched record, by name the first listed match). -/
theorem claimC8 (store : DatasetStore) (nm ident : String) (d : Dataset) :
    read_dataset store (some nm) (some ident) = Except.error ReadError.xorArgs ∧
    read_dataset store none none = Except.error ReadError.xorArgs ∧
    (store.byId ident = none →
      read_dataset store none (some ident) = Except.error ReadError.httpNotFound) ∧
    (store.byName nm = [] →
      read_dataset store (some nm) none = Except.error (ReadError.notFound nm)) ∧
    (store.byId ident = some d →
      read_dataset store none (some ident) = Except.ok d) ∧
    (∀ ds, store.byName nm = d :: ds →
      read_dataset store (some nm) none = Except.ok d) := by
  refine ⟨rfl, rfl, ?_, ?_, ?_, ?_⟩
  · intro h
    simp [read_dataset, h]
  · intro h
    simp [read_dataset, h]
  · intro h
    simp [read_dataset, h]
  · intro ds h
    simp [read_dataset, h]

/-- Witness for C8 over the concrete store store0. -/
theorem claimC8_witness :
    read_dataset store0 (some "b") (some "x") = Except.error ReadError.xorArgs ∧
    read_dataset store0 none none = Except.error ReadError.xorArgs ∧
    read_dataset store0 none (some "y") = Except.error ReadError.httpNotFound ∧
    read_dataset store0 (some "a") none = Except.error (ReadError.notFound "a") ∧
    read_dataset store0 none (some "x") = Except.ok d0 ∧
    read_dataset store0 (some "b") none = Except.ok d0 :=
  ⟨(claimC8 store0 "b" "x" d0).1,
    (claimC8 store0 "b" "x" d0).2.1,
    (claimC8 store0 "a" "y" d0).2.2.1 (by decide),
    (claimC8 store0 "a" "y" d0).2.2.2.1 (by decide),
    (claimC8 store0 "b" "x" d0).2.2.2.2.1 (by decide),
    (claimC8 store0 "b" "x" d0).2.2.2.2.2 [] (by decide)⟩

/-- C10: the two runners key the result map differently: for a singleton
listing, arun_on_dataset stores the outcome sequence under the string
rendering str(example.id) while run_on_dataset stores it under the raw
example.id, and a string key never equals a raw-uuid key, so the two maps
differ in key type on the same dataset. -/
theorem claimC10 (p : Predictor) (e : Example) (W R : Nat)
    (hp : p.isBaseLanguageModel = false) :
    arun_on_dataset p [e] W R [e] =
        Except.ok ([(PyKey.str (strOfId e.id), asyncOutputs p R e)], 1) ∧
    run_on_dataset p [e] R = Except.ok [(PyKey.uuid e.id, syncOutputs p R e)] ∧
    (∀ s idv, PyKey.str s ≠ PyKey.uuid idv) := by
  refine ⟨?_, ?_, fun s idv h => PyKey.noConfusion h⟩
  · simp [arun_on_dataset, hp, _worker, dictInsert, arun_llm_or_chain_outputs]
  · simp [run_on_dataset, hp, seqLoop, dictInsert, run_llm_or_chain_outputs]

/-- Witness for C10 at the constant chain on the singleton listing. -/
theorem claimC10_witness :
    constChain.isBaseLanguageModel = false ∧
    (arun_on_dataset constChain [exA] 1 1 [exA] =
        Except.ok ([(PyKey.str (strOfId exA.id), asyncOutputs constChain 1 exA)], 1) ∧
      run_on_dataset constChain [exA] 1 =
        Except.ok [(PyKey.uuid exA.id, syncOutputs constChain 1 exA)] ∧
      (∀ s idv, PyKey.str s ≠ PyKey.uuid idv)) :=
  ⟨rfl, claimC10 constChain exA 1 1 rfl⟩

end LangChainClient
